import Mathlib

/-!
Shallow embedding of the RobotS actor core: the addressing layer
(`src/actors/actor_ref.rs`) and the asynchronous result protocol
(`src/actors/future.rs`).

Modelling conventions:
* Rust `panic!`/`expect`/`unreachable!` aborts are modelled either as an
  `Except.error` result (for functions whose only effect is the abort) or as a
  `panicked : Option String` field of an effect record (for the `Future` actor,
  where state mutations that happen before the abort must stay observable).
* The `Mutex`/`Arc` synchronisation wrappers are erased where a call acquires
  and releases a lock normally: the embedding gives the sequential semantics of
  the call while the lock is held. The one place where the lock itself is
  observable single-threadedly — `Future::do_computation` re-locking the
  non-reentrant state mutex that `Future::receive`'s `Calculation` arm still
  holds — is modelled explicitly: such a call deadlocks (never returns), which
  the `FutureEffect.deadlocked` flag records.
* `Box<Any>` payloads are an abstract type parameter; a `downcast::<T>` on an
  incoming message is modelled by a sum type recording whether the dynamic type
  matched `T`.
* The `ActorCell` and `Cthulhu` types live outside the two embedded source
  files; they appear as opaque type parameters `κ` (cell) and `γ` (Cthulhu),
  and a successful delivery is recorded as a value saying which inner target
  received which message, rather than by running the (external) mailbox code.
-/

namespace RobotS

/-! ### `ActorPath` (src/actors/actor_ref.rs) -/

/-- Connection information for a distant actor (struct `ConnectionInfo`). -/
structure ConnectionInfo where
  distant_logical_path : String
  addr_port : String
deriving DecidableEq, Repr

/-- Path to an actor (enum `ActorPath`): logical path of a local actor, or
logical path plus connection information of a distant one. -/
inductive ActorPath where
  | Local (path : String)
  | Distant (info : ConnectionInfo)
deriving DecidableEq, Repr

/-- `ActorPath::new_local`. -/
def ActorPath.new_local (path : String) : ActorPath :=
  ActorPath.Local path

/-- `ActorPath::new_distant`. -/
def ActorPath.new_distant (distant_logical_path addr_port : String) : ActorPath :=
  ActorPath.Distant ⟨distant_logical_path, addr_port⟩

/-- `ActorPath::logical_path`: the local logical path whether the actor is
local or not. -/
def ActorPath.logical_path : ActorPath → String
  | ActorPath.Local s => s
  | ActorPath.Distant c => c.distant_logical_path

/-- `ConnectionInfo::addr_port`. -/
def ConnectionInfo.addrPort (c : ConnectionInfo) : String :=
  c.addr_port

/-- `ActorPath::child`: `format!("\x7b\x7d/\x7b\x7d", s, name)` on a `Local`
path; `panic!` (modelled as `Except.error`) on a `Distant` one. -/
def ActorPath.child : ActorPath → String → Except String ActorPath
  | ActorPath.Local s, name => Except.ok (ActorPath.new_local (s ++ "/" ++ name))
  | ActorPath.Distant _, _ => Except.error "Cannot create a child for a distant actor."

/-! ### `ActorRef` (src/actors/actor_ref.rs)

`γ` is the (external) `Cthulhu` type, `κ` the (external) `ActorCell` type,
`σ` a `SystemMessage`, `μ` the type-erased user payload. -/

/-- Enum `InnerActor`: the target behind a live `ActorRef`. -/
inductive InnerActor (γ κ : Type) where
  | Cthulhu (c : γ)
  | Actor (cell : κ)
deriving Repr

/-- Enum `InnerMessage`, as used in `actor_ref.rs`: a type-erased user
payload (`InnerMessage::Message`). -/
inductive InnerMessage (μ : Type) where
  | Message (payload : μ)
deriving DecidableEq, Repr

/-- Struct `ActorRef`: an optional inner target (`None` for a distant stub)
plus a shared `ActorPath`. -/
structure ActorRef (γ κ : Type) where
  inner_actor : Option (InnerActor γ κ)
  path : ActorPath
deriving Repr

/-- `ActorRef::new_distant`. -/
def ActorRef.new_distant (γ κ : Type) (path : ActorPath) : ActorRef γ κ :=
  { inner_actor := none, path := path }

/-- `ActorRef::with_cthulhu`. -/
def ActorRef.with_cthulhu (κ : Type) {γ : Type} (cthulhu : γ) : ActorRef γ κ :=
  { inner_actor := some (InnerActor.Cthulhu cthulhu), path := ActorPath.new_local "/" }

/-- `ActorRef::with_cell`. -/
def ActorRef.with_cell (γ : Type) {κ : Type} (cell : κ) (path : ActorPath) : ActorRef γ κ :=
  { inner_actor := some (InnerActor.Actor cell), path := path }

/-- Outcome of a successful `receive_system_message`: which inner target the
system message was handed to (`cell.receive_system_message(m)` or
`cthulhu.receive_system_message()`). -/
inductive SystemDelivery (γ κ σ : Type) where
  | toActor (cell : κ) (m : σ)
  | toCthulhu (c : γ)

/-- Outcome of a successful `receive`: which inner target got the user message
and the sender (`cell.receive_message(m, sender)` or `cthulhu.receive()`). -/
inductive UserDelivery (γ κ μ : Type) where
  | toActor (cell : κ) (m : InnerMessage μ) (sender : ActorRef γ κ)
  | toCthulhu (c : γ)

/-- `ActorRef::receive_system_message`: `expect`-fails on a distant stub,
otherwise hands the message to the inner target. -/
def ActorRef.receive_system_message (self : ActorRef γ κ) (system_message : σ) :
    Except String (SystemDelivery γ κ σ) :=
  match self.inner_actor with
  | none => Except.error "Tried to put a system message in the mailbox of a distant actor."
  | some (InnerActor.Actor cell) => Except.ok (SystemDelivery.toActor cell system_message)
  | some (InnerActor.Cthulhu c) => Except.ok (SystemDelivery.toCthulhu c)

/-- `ActorRef::receive`: `expect`-fails on a distant stub, otherwise hands the
user message and the sender to the inner target. -/
def ActorRef.receive (self : ActorRef γ κ) (message : InnerMessage μ) (sender : ActorRef γ κ) :
    Except String (UserDelivery γ κ μ) :=
  match self.inner_actor with
  | none => Except.error "Tried to put a message in the mailbox of a distant actor."
  | some (InnerActor.Actor cell) => Except.ok (UserDelivery.toActor cell message sender)
  | some (InnerActor.Cthulhu c) => Except.ok (UserDelivery.toCthulhu c)

/-- `ActorRef::tell_to`: first `expect("")` on `self`'s own inner target (so a
distant stub aborts before any delivery), then type-erases the payload and
calls `to.receive` with `self` as sender. -/
def ActorRef.tell_to (self : ActorRef γ κ) (dest : ActorRef γ κ) (message : μ) :
    Except String (UserDelivery γ κ μ) :=
  match self.inner_actor with
  | none => Except.error ""
  | some _ => dest.receive (InnerMessage.Message message) self

/-! ### `Future` (src/actors/future.rs)

`α` is the type-erased `Box<Any + Send>` payload. -/

/-- Enum `FutureState`. -/
inductive FutureState (α : Type) where
  | Uncompleted
  | Computing (value : α)
  | Terminated
  | Extracted
deriving DecidableEq, Repr

/-- A transformation step (`Fn(Box<Any + Send>, ActorCell) -> FutureState`);
the `ActorCell` handle is only used for its side channel and does not
determine the returned state, so it is elided. -/
def CalculationStep (α : Type) : Type := α → FutureState α

/-- Enum `FutureMessages`. -/
inductive FutureMessages (α : Type) where
  | Complete (msg : α)
  | Calculation (func : CalculationStep α)

/-- Struct `Future`: the `Mutex<Option<FutureState>>` state slot and the
`VecDeque` of scheduled calculation steps. -/
structure Future (α : Type) where
  state : Option (FutureState α)
  scheduled_calculations : List (CalculationStep α)

/-- `Future::new`. -/
def Future.new (α : Type) (_dummy : Unit) : Future α :=
  { state := some FutureState.Uncompleted, scheduled_calculations := [] }

/-- Observable effect of one `Future::receive` call: the future afterwards,
the panic message if the call aborted, whether `context.kill_me()` ran, and
whether the call deadlocked (never returned). When `deadlocked = true`, the
`future` field is the observable shared state at the moment the call blocked
forever, and `panicked`/`killed` are `none`/`false` because neither effect is
ever reached. -/
structure FutureEffect (α : Type) where
  future : Future α
  panicked : Option String
  killed : Bool
  deadlocked : Bool

/-- `Future::do_computation`. Its first statement is
`self.state.lock().unwrap()`. `std::sync::Mutex` is non-reentrant, so the
behaviour depends on whether the calling thread already holds that lock —
`receive`'s `Calculation` arm does, its guard (future.rs line 86) being live
across the call (future.rs line 89) — hence the explicit
`lock_already_held` parameter. If the lock is already held, the acquisition
never returns: the call deadlocks with `self` unchanged and no kill. If it is
free, the body runs: store `func(value)` as the new state, then kill the
future if the new state is terminal, and `panic!` if the closure returned
`Uncompleted`. -/
def Future.do_computation (self : Future α) (value : α) (func : CalculationStep α)
    (lock_already_held : Bool) : FutureEffect α :=
  if lock_already_held then
    { future := self, panicked := none, killed := false, deadlocked := true }
  else
    let newSelf : Future α := { self with state := some (func value) }
    match func value with
    | FutureState.Terminated =>
        { future := newSelf, panicked := none, killed := true, deadlocked := false }
    | FutureState.Extracted =>
        { future := newSelf, panicked := none, killed := true, deadlocked := false }
    | FutureState.Uncompleted =>
        { future := newSelf,
          panicked := some "A future closure returned Uncompleted, this should not happen",
          killed := false, deadlocked := false }
    | FutureState.Computing _ =>
        { future := newSelf, panicked := none, killed := false, deadlocked := false }

/-- `Future::receive` (the `Actor` impl). A message that does not downcast to
`FutureMessages` is ignored (`none` case). On `Complete` in `Uncompleted` the
state is set to `Computing` and the queued-step loop runs: its body is
`panic!("I should be computing")` after `pop_front`, so a non-empty queue
aborts with the front step already removed. On `Calculation` the state is
taken (leaving the slot `None`), dispatched on, and restored — except the
`Computing` arm, which calls `do_computation` while the state lock taken at
future.rs line 86 is still held, so that call re-locks the same non-reentrant
mutex and deadlocks with the slot still `None`. -/
def Future.receive (self : Future α) (message : Option (FutureMessages α)) : FutureEffect α :=
  match message with
  | none => { future := self, panicked := none, killed := false, deadlocked := false }
  | some (FutureMessages.Complete msg) =>
    match self.state with
    | some FutureState.Uncompleted =>
      let completed : Future α := { self with state := some (FutureState.Computing msg) }
      match completed.scheduled_calculations with
      | [] => { future := completed, panicked := none, killed := false, deadlocked := false }
      | _ :: rest =>
          { future := { completed with scheduled_calculations := rest },
            panicked := some "I should be computing",
            killed := false, deadlocked := false }
    | some _ =>
        { future := self, panicked := some "Tried to complete a Future twice",
          killed := false, deadlocked := false }
    | none =>
        { future := self, panicked := some "internal error: entered unreachable code",
          killed := false, deadlocked := false }
  | some (FutureMessages.Calculation func) =>
    match self.state with
    | none => { future := self, panicked := some "lol", killed := false, deadlocked := false }
    | some (FutureState.Computing value) =>
        Future.do_computation { self with state := none } value func true
    | some FutureState.Uncompleted =>
        { future :=
            { self with scheduled_calculations := self.scheduled_calculations ++ [func] },
          panicked := none, killed := false, deadlocked := false }
    | some FutureState.Terminated =>
        { future := self, panicked := some "A closure was called on a Terminated Future.",
          killed := false, deadlocked := false }
    | some FutureState.Extracted =>
        { future := self, panicked := some "A closure was called on an extracted Future.",
          killed := false, deadlocked := false }

/-! ### `FutureExtractor` (src/actors/future.rs) -/

/-- Result of `Box::<Any>::downcast::<T>` on the extractor's incoming message:
either the payload has the extractor's expected type `T`, or it has some other
dynamic type. -/
inductive ExtractorMessage (T : Type) where
  | typed (value : T)
  | otherType

/-- Struct `FutureExtractor<T>`: the observed future's `ActorRef` and the
one-shot `Sender<T>` channel, modelled as the list of values sent so far. -/
structure FutureExtractor (γ κ T : Type) where
  future : ActorRef γ κ
  channel : List T

/-- Observable effect of one `FutureExtractor::receive` call. -/
structure ExtractorEffect (γ κ T : Type) where
  extractor : FutureExtractor γ κ T
  killed : Bool

/-- `FutureExtractor::receive`: if the message downcasts to `T`, send it
through the channel and `kill_me`; otherwise fall through (silent drop). -/
def FutureExtractor.receive (self : FutureExtractor γ κ T) (message : ExtractorMessage T) :
    ExtractorEffect γ κ T :=
  match message with
  | ExtractorMessage.typed value =>
      { extractor := { self with channel := self.channel ++ [value] }, killed := true }
  | ExtractorMessage.otherType => { extractor := self, killed := false }

end RobotS

namespace RobotS

/-! ### Claims -/

/-- Claim C1: at most one `Complete` succeeds per `Future`. If the state is
anything other than `Uncompleted`, delivering `Complete(value)` aborts the
call (`panic!("Tried to complete a Future twice")`) and the future — its held
state and its queued steps — is left exactly as it was. -/
theorem C1_complete_at_most_once {α : Type} (f : Future α) (s : FutureState α) (v : α)
    (hs : f.state = some s) (hne : s ≠ FutureState.Uncompleted) :
    (f.receive (some (FutureMessages.Complete v))).panicked =
      some "Tried to complete a Future twice" ∧
    (f.receive (some (FutureMessages.Complete v))).future = f := by
  obtain ⟨st, q⟩ := f
  cases s <;> simp_all [Future.receive]

/-- Witness for C1 at a concrete already-completed future. -/
theorem C1_complete_at_most_once_witness :
    (({ state := some (FutureState.Computing 5), scheduled_calculations := [] } :
        Future Nat).state = some (FutureState.Computing 5)) ∧
    (FutureState.Computing 5 ≠ (FutureState.Uncompleted : FutureState Nat)) ∧
    ((({ state := some (FutureState.Computing 5), scheduled_calculations := [] } :
        Future Nat).receive (some (FutureMessages.Complete 7))).panicked =
      some "Tried to complete a Future twice" ∧
     (({ state := some (FutureState.Computing 5), scheduled_calculations := [] } :
        Future Nat).receive (some (FutureMessages.Complete 7))).future =
       { state := some (FutureState.Computing 5), scheduled_calculations := [] }) :=
  ⟨rfl, by decide,
    C1_complete_at_most_once
      { state := some (FutureState.Computing 5), scheduled_calculations := [] }
      (FutureState.Computing 5) 7 rfl (by decide)⟩

/-- Claim C2, code bug: the deferred half of the claim fails in the code. A
`Future` that is `Uncompleted` with one queued step, on `Complete(3)`, does
set the state to `Computing(3)` and pop the step, but then aborts with
`panic!("I should be computing")` (the source marks the spot
`FIXME(gamazeps) compute for real..`) instead of running the step: the state
stays `Computing(3)`, never `Computing(step(3))`. -/
theorem C2_complete_with_queued_step_panics :
    ((({ state := some FutureState.Uncompleted,
         scheduled_calculations := [fun v => FutureState.Computing (v + 1)] } :
        Future Nat).receive (some (FutureMessages.Complete 3))).panicked =
      some "I should be computing") ∧
    ((({ state := some FutureState.Uncompleted,
         scheduled_calculations := [fun v => FutureState.Computing (v + 1)] } :
        Future Nat).receive (some (FutureMessages.Complete 3))).future.state =
      some (FutureState.Computing 3)) :=
  ⟨rfl, rfl⟩

/-- Claim C3: from `Uncompleted`, delivering `Complete(value)` moves the state
to `Computing(value)` holding exactly the completed payload; with no queued
steps the call succeeds (no panic, no kill). -/
theorem C3_complete_transitions_to_computing {α : Type} (f : Future α) (v : α)
    (h : f.state = some FutureState.Uncompleted) :
    (f.receive (some (FutureMessages.Complete v))).future.state =
      some (FutureState.Computing v) ∧
    (f.scheduled_calculations = [] →
      (f.receive (some (FutureMessages.Complete v))).panicked = none ∧
      (f.receive (some (FutureMessages.Complete v))).killed = false) := by
  obtain ⟨st, q⟩ := f
  subst h
  cases q <;> simp [Future.receive]

/-- Witness for C3 at a fresh future. -/
theorem C3_complete_transitions_to_computing_witness :
    ((Future.new Nat ()).state = some FutureState.Uncompleted) ∧
    (((Future.new Nat ()).receive (some (FutureMessages.Complete 4))).future.state =
        some (FutureState.Computing 4) ∧
      ((Future.new Nat ()).scheduled_calculations = [] →
        ((Future.new Nat ()).receive (some (FutureMessages.Complete 4))).panicked = none ∧
        ((Future.new Nat ()).receive (some (FutureMessages.Complete 4))).killed = false)) :=
  ⟨rfl, C3_complete_transitions_to_computing (Future.new Nat ()) 4 rfl⟩

/-- Claim C4, code bug: the claimed transition never happens in the code. On a
future in `Computing(2)`, delivering `Calculation(fun _ => Terminated)` enters
`receive`'s `Calculation` arm, which takes the state (slot left `None`) while
holding the state lock (future.rs line 86) and then calls `do_computation`
(line 89), whose first statement re-locks the same non-reentrant
`std::sync::Mutex` (line 47): the call deadlocks, the slot stays `None`, and
`kill_me` never runs — instead of the claimed store of the step's return value
and kill on a terminal result. The last two conjuncts evaluate the body of
`do_computation` as it would run with the lock free (future.rs lines 48-54,
and the source's own `FutureMessages` docs): state `Terminated` and a kill —
the intent the deadlock prevents, matching the claim and spec table §4.4. -/
theorem C4_apply_on_computing_deadlocks :
    ((({ state := some (FutureState.Computing 2), scheduled_calculations := [] } :
        Future Nat).receive
          (some (FutureMessages.Calculation (fun _ => FutureState.Terminated)))).deadlocked
        = true) ∧
    ((({ state := some (FutureState.Computing 2), scheduled_calculations := [] } :
        Future Nat).receive
          (some (FutureMessages.Calculation (fun _ => FutureState.Terminated)))).killed
        = false) ∧
    ((({ state := some (FutureState.Computing 2), scheduled_calculations := [] } :
        Future Nat).receive
          (some (FutureMessages.Calculation (fun _ => FutureState.Terminated)))).future.state
        = none) ∧
    ((({ state := none, scheduled_calculations := [] } : Future Nat).do_computation 2
        (fun _ => FutureState.Terminated) false).future.state =
        some FutureState.Terminated) ∧
    ((({ state := none, scheduled_calculations := [] } : Future Nat).do_computation 2
        (fun _ => FutureState.Terminated) false).killed = true) :=
  ⟨rfl, rfl, rfl, rfl, rfl⟩

/-- Claim C5: delivering `Calculation(func)` to a `Terminated` or `Extracted`
future aborts the call with a panic, never runs the step, never kills again,
and leaves the future (state and queue) unchanged. -/
theorem C5_apply_on_terminal_fatal {α : Type} (f : Future α) (func : CalculationStep α)
    (h : f.state = some FutureState.Terminated ∨ f.state = some FutureState.Extracted) :
    (f.receive (some (FutureMessages.Calculation func))).panicked.isSome = true ∧
    (f.receive (some (FutureMessages.Calculation func))).future = f ∧
    (f.receive (some (FutureMessages.Calculation func))).killed = false := by
  obtain ⟨st, q⟩ := f
  rcases h with h | h <;> subst h <;> simp [Future.receive]

/-- Witness for C5 at a concrete terminated future. -/
theorem C5_apply_on_terminal_fatal_witness :
    (({ state := some FutureState.Terminated, scheduled_calculations := [] } :
        Future Nat).state = some FutureState.Terminated ∨
     ({ state := some FutureState.Terminated, scheduled_calculations := [] } :
        Future Nat).state = some FutureState.Extracted) ∧
    ((({ state := some FutureState.Terminated, scheduled_calculations := [] } :
        Future Nat).receive
          (some (FutureMessages.Calculation (fun v => FutureState.Computing v)))).panicked.isSome
        = true ∧
      (({ state := some FutureState.Terminated, scheduled_calculations := [] } :
        Future Nat).receive
          (some (FutureMessages.Calculation (fun v => FutureState.Computing v)))).future =
        { state := some FutureState.Terminated, scheduled_calculations := [] } ∧
      (({ state := some FutureState.Terminated, scheduled_calculations := [] } :
        Future Nat).receive
          (some (FutureMessages.Calculation (fun v => FutureState.Computing v)))).killed =
        false) :=
  ⟨Or.inl rfl,
    C5_apply_on_terminal_fatal
      { state := some FutureState.Terminated, scheduled_calculations := [] }
      (fun v => FutureState.Computing v) (Or.inl rfl)⟩

end RobotS

namespace RobotS

/-- Claim C6: an `ActorRef` whose inner target is `None` (distant stub)
fatally rejects both delivery entry points — `receive_system_message` and
`receive` — with the source's `expect` messages, while `path` still succeeds:
a ref built with `new_distant p` reports exactly the path `p`. -/
theorem C6_distant_ref_delivery_fatal {γ κ σ μ : Type} (r : ActorRef γ κ)
    (hn : r.inner_actor = none) (m : σ) (im : InnerMessage μ) (sender : ActorRef γ κ)
    (p : ActorPath) :
    r.receive_system_message m =
      Except.error "Tried to put a system message in the mailbox of a distant actor." ∧
    r.receive im sender =
      Except.error "Tried to put a message in the mailbox of a distant actor." ∧
    (ActorRef.new_distant γ κ p).path = p := by
  refine ⟨?_, ?_, rfl⟩ <;>
    simp [ActorRef.receive_system_message, ActorRef.receive, hn]

/-- Witness for C6 at a concrete distant stub. -/
theorem C6_distant_ref_delivery_fatal_witness :
    ((ActorRef.new_distant Unit Unit (ActorPath.new_local "/user/far")).inner_actor = none) ∧
    ((ActorRef.new_distant Unit Unit
        (ActorPath.new_local "/user/far")).receive_system_message (0 : Nat) =
      Except.error "Tried to put a system message in the mailbox of a distant actor." ∧
     (ActorRef.new_distant Unit Unit (ActorPath.new_local "/user/far")).receive
        (InnerMessage.Message (1 : Nat))
        (ActorRef.new_distant Unit Unit (ActorPath.new_local "/user/far")) =
      Except.error "Tried to put a message in the mailbox of a distant actor." ∧
     (ActorRef.new_distant Unit Unit (ActorPath.new_local "/user/sun")).path =
       ActorPath.new_local "/user/sun") :=
  ⟨rfl,
    C6_distant_ref_delivery_fatal
      (ActorRef.new_distant Unit Unit (ActorPath.new_local "/user/far")) rfl (0 : Nat)
      (InnerMessage.Message (1 : Nat))
      (ActorRef.new_distant Unit Unit (ActorPath.new_local "/user/far"))
      (ActorPath.new_local "/user/sun")⟩

/-- Claim C7: `child` on a `Local` path with name `s` yields the `Local` path
`s ++ "/" ++ n`; chaining from the local path `"/a"` through `"x"` then `"y"`
yields `"/a/x/y"`; and `child` on a `Distant` path always fails fatally. -/
theorem C7_child_path_derivation (s n : String) (c : ConnectionInfo) :
    (ActorPath.Local s).child n = Except.ok (ActorPath.Local (s ++ "/" ++ n)) ∧
    (((ActorPath.Local "/a").child "x").bind (fun p => p.child "y") =
      Except.ok (ActorPath.Local "/a/x/y")) ∧
    (ActorPath.Distant c).child n =
      Except.error "Cannot create a child for a distant actor." :=
  ⟨rfl, rfl, rfl⟩

/-- Claim C8: `logical_path` returns the local-style logical name: the name of
a `Local` path, and the distant logical path — never the address/port — of a
`Distant` one. -/
theorem C8_logical_path_is_logical (s lp ap : String) :
    (ActorPath.Local s).logical_path = s ∧
    (ActorPath.new_distant lp ap).logical_path = lp :=
  ⟨rfl, rfl⟩

/-- Claim C9: a `FutureExtractor` that receives a message of its expected type
`T` sends exactly that value through its one-shot channel and kills itself;
on a message of any other dynamic type it neither uses the channel nor
terminates — the message is silently dropped. -/
theorem C9_extractor_forwards_then_dies {γ κ T : Type}
    (e : FutureExtractor γ κ T) (v : T) :
    (e.receive (ExtractorMessage.typed v)).extractor.channel = e.channel ++ [v] ∧
    (e.receive (ExtractorMessage.typed v)).killed = true ∧
    (e.receive ExtractorMessage.otherType).extractor = e ∧
    (e.receive ExtractorMessage.otherType).killed = false :=
  ⟨rfl, rfl, rfl, rfl⟩

/-- Claim C10: `tell_to` called on a distant stub (`inner_actor = None`)
aborts with the source's `expect("")` before any delivery happens, whatever
the destination — in particular even when the destination is a live local
actor. -/
theorem C10_distant_sender_fatal {γ κ μ : Type} (self dest : ActorRef γ κ) (message : μ)
    (hn : self.inner_actor = none) :
    self.tell_to dest message = Except.error "" := by
  simp [ActorRef.tell_to, hn]

/-- Witness for C10: a distant stub telling a live local actor. -/
theorem C10_distant_sender_fatal_witness :
    ((ActorRef.new_distant Unit Unit (ActorPath.new_local "/user/far")).inner_actor = none) ∧
    ((ActorRef.new_distant Unit Unit (ActorPath.new_local "/user/far")).tell_to
        (ActorRef.with_cell Unit () (ActorPath.new_local "/user/near")) (5 : Nat) =
      Except.error "") :=
  ⟨rfl,
    C10_distant_sender_fatal
      (ActorRef.new_distant Unit Unit (ActorPath.new_local "/user/far"))
      (ActorRef.with_cell Unit () (ActorPath.new_local "/user/near")) (5 : Nat) rfl⟩

end RobotS
